import Mathlib

/-!
Formal model of the OpenPrism static-asset scripts
(src/static/compress_png.py, src/static/compress_gif.py,
src/static/image_info.py), as a shallow embedding.

Conventions of the embedding:
* a file's byte string is `Bytes` (a list of naturals); its size is its length;
* Python float arithmetic on sizes and resize ratios is modelled by exact
  rationals (all quantities involved are exactly representable);
* `Image.open` results are modelled by `PilImage` / `ImgData` records; a file
  whose content is unreadable as an image is one whose `img` field is
  `Option.none`;
* the external gifsicle process is modelled by a `ToolOutcome` parameter
  (exit status, stderr text, and bytes it may have written to the temporary
  output path); the Pillow encoders are modelled by an `enc` parameter;
* the two filesystem slots touched by compress_gif (the original path and the
  path with ".tmp" appended) are the two fields of `GifFs`.
-/

/-- Abstraction of a file's byte string; the file's size is the length. -/
abbrev Bytes : Type := List ℕ

/-! ## Shared: proportional resize (compress_png.py lines 31-34, compress_gif.py lines 43-46)

The two height computations run in IEEE-754 binary64: `max_width / img.width`
is a correctly rounded double division of exactly converted integers, and
`img.height * ratio` a correctly rounded double multiplication, both with
round-to-nearest, ties to even.  `fl64` is that rounding on exact rationals:
for the operand ranges these scripts can meet (pixel dimensions, far below
2^53, and their quotients, far inside the normal range) the rational
computation coincides with the machine one, with no overflow or subnormal
cases. -/

/-- Round a rational to the nearest integer, ties to the even integer: the
rounding IEEE-754 applies to the scaled significand. -/
def rheInt (x : ℚ) : ℤ :=
  let f := Int.floor x
  if x - (f : ℚ) < 1 / 2 then f
  else if (1 : ℚ) / 2 < x - (f : ℚ) then f + 1
  else if f % 2 = 0 then f else f + 1

/-- Round a rational to the nearest IEEE-754 binary64 value (round to
nearest, ties to even): scale into the binade [2^52, 2^53), round the
significand half-to-even, and scale back.  Overflow and subnormals do not
arise for the operand ranges of these scripts. -/
def fl64 (q : ℚ) : ℚ :=
  if q = 0 then 0
  else
    (if q < 0 then -1 else 1) *
      (rheInt (|q| / 2 ^ (Int.log 2 |q| - 52)) : ℚ) * (2 : ℚ) ^ (Int.log 2 |q| - 52)

/-- The value of `ratio = max_width / img.width` (compress_png.py line 32,
compress_gif.py line 44): a correctly rounded double division. -/
def pyRatio (maxW w : ℕ) : ℚ := fl64 ((maxW : ℚ) / (w : ℚ))

/-- The value of `new_h = int(img.height * ratio)` (compress_png.py line 33,
compress_gif.py line 45): the correctly rounded double product, truncated
toward zero by `int()` (the floor, as the value is nonnegative).  Both
scripts contain this identical two-line computation. -/
def pyResizeHeight (maxW w h : ℕ) : ℕ :=
  (Int.floor (fl64 ((h : ℚ) * pyRatio maxW w))).toNat

/-- Model of compress_png.py lines 31-34 : the (width, height) the image is
resized to, or the original pair when `img.width > max_width` fails. -/
def compress_image_resize (maxW w h : ℕ) : ℕ × ℕ :=
  if maxW < w then (maxW, pyResizeHeight maxW w h) else (w, h)

/-- Model of compress_gif.py lines 43-46 : the (width, height) passed to
gifsicle in the `--resize=WxH` flag, or `Option.none` when no resize flag is
added (`old_dims[0] > max_width` fails). -/
def gif_resize_arg (maxW w h : ℕ) : Option (ℕ × ℕ) :=
  if maxW < w then Option.some (maxW, pyResizeHeight maxW w h) else Option.none

/-! ## compress_png.py : compress_image -/

/-- An in-memory Pillow image: pixel dimensions and mode string. -/
structure PilImage where
  width : ℕ
  height : ℕ
  mode : String
deriving DecidableEq

/-- Model of compress_png.py lines 30-34 : `img.resize((max_width, new_h))`
when `img.width > max_width`, identity otherwise.  The mode is unchanged. -/
def resizeIfWide (maxW : ℕ) (img : PilImage) : PilImage :=
  { width := (compress_image_resize maxW img.width img.height).1
    height := (compress_image_resize maxW img.width img.height).2
    mode := img.mode }

/-- The `img.save` call compress_image issues (or no call at all), as data:
which encoder, which image object, the quality, and the optimize flag. -/
inductive SaveCall where
  | png (img : PilImage) (optimize : Bool)
  | jpeg (img : PilImage) (quality : ℕ) (optimize : Bool)
  | skip
deriving DecidableEq

/-- Model of compress_png.py lines 36-42 : the extension dispatch.
`.png` saves as PNG with optimize=True; `.jpg`/`.jpeg` first converts the
image to RGB when (and only when) `img.mode == "RGBA"`, then saves as JPEG
with the given quality and optimize=True; any other extension saves nothing. -/
def compress_image_save (ext : String) (quality : ℕ) (img : PilImage) : SaveCall :=
  if ext = ".png" then SaveCall.png img true
  else if ext = ".jpg" ∨ ext = ".jpeg" then
    SaveCall.jpeg (if img.mode = "RGBA" then { img with mode := "RGB" } else img) quality true
  else SaveCall.skip

/-- Model of compress_png.py compress_image (lines 24-46).  `enc` abstracts
the Pillow encoder: the bytes it writes to the path for a given save call.
Returns ((old_size, new_size, orig_dims, new_dims), bytes now at the path).
The source file is overwritten by the encoder output unconditionally: no
size comparison guards the save. -/
def compress_image (enc : SaveCall → Bytes) (maxW quality : ℕ) (ext : String)
    (file : Bytes) (img0 : PilImage) : (ℕ × ℕ × (ℕ × ℕ) × (ℕ × ℕ)) × Bytes :=
  let old_size := file.length
  let img := resizeIfWide maxW img0
  let saved : Bytes :=
    match compress_image_save ext quality img with
    | SaveCall.skip => file
    | c => enc c
  ((old_size, saved.length, (img0.width, img0.height), (img.width, img.height)), saved)

/-! ## compress_gif.py : compress_gif -/

/-- Outcome of the `subprocess.run(gifsicle ...)` call: a non-zero exit with
its stripped stderr text and whatever bytes the tool may have left at the
temporary path, or a zero exit with the bytes written to the temporary path. -/
inductive ToolOutcome where
  | fail (stderr : String) (tmpWritten : Option Bytes)
  | ok (output : Bytes)
deriving DecidableEq

/-- The two filesystem slots compress_gif touches: the original path and the
temporary path (the input path with ".tmp" appended).  `tmp = Option.none`
means no file exists at the temporary path. -/
structure GifFs where
  orig : Bytes
  tmp : Option Bytes
deriving DecidableEq

/-- The tuple compress_gif returns:
(old_size, new_size, old_dims, new_dims, error text or Option.none). -/
structure GifReport where
  old_size : ℕ
  new_size : ℕ
  old_dims : ℕ × ℕ
  new_dims : ℕ × ℕ
  err : Option String
deriving DecidableEq

/-- Effect of the gifsicle invocation on the filesystem (`-o tmp` writes the
temporary path): on success the output lands at the temporary path; on
failure the tool may or may not have written it. -/
def runGifsicle (t : ToolOutcome) (fs : GifFs) : GifFs :=
  match t with
  | ToolOutcome.fail _ w => { fs with tmp := w }
  | ToolOutcome.ok out => { fs with tmp := Option.some out }

/-- Model of compress_gif.py lines 31-66 (the cmd construction of lines
36-46 is modelled by `gif_resize_arg`; `dims` abstracts get_gif_dims, the
dimensions Pillow reads from the bytes at a path).
Non-zero exit: remove the temporary file if it exists and return
(old_size, old_size, old_dims, old_dims, stderr).  Zero exit: if the new
size is strictly smaller, move the temporary file over the original;
otherwise remove the temporary file and report the size unchanged; then
re-probe the dimensions of the file now at the original path. -/
def compress_gif (dims : Bytes → ℕ × ℕ) (t : ToolOutcome) (fs0 : GifFs) :
    GifReport × GifFs :=
  let old_size := fs0.orig.length
  let old_dims := dims fs0.orig
  let fs1 := runGifsicle t fs0
  match t with
  | ToolOutcome.fail stderr _ =>
      (⟨old_size, old_size, old_dims, old_dims, Option.some stderr⟩,
       { fs1 with tmp := Option.none })
  | ToolOutcome.ok out =>
      let new_size := out.length
      if new_size < old_size then
        let fs2 : GifFs := { orig := out, tmp := Option.none }
        (⟨old_size, new_size, old_dims, dims fs2.orig, Option.none⟩, fs2)
      else
        let fs2 : GifFs := { orig := fs0.orig, tmp := Option.none }
        (⟨old_size, old_size, old_dims, dims fs2.orig, Option.none⟩, fs2)

/-- The per-file loop of compress_gif.py main (lines 96-107): every listed
file is processed by compress_gif in order; a tool failure on one file does
not stop the loop. -/
def compress_gif_run (dims : Bytes → ℕ × ℕ) :
    List (ToolOutcome × GifFs) → List (GifReport × GifFs)
  | [] => []
  | p :: rest => compress_gif dims p.1 p.2 :: compress_gif_run dims rest

/-! ## Shared: human_size (compress_png.py lines 16-21, compress_gif.py lines 18-23, image_info.py lines 11-16) -/

/-- The unit loop of human_size: walk the unit list, dividing by 1024 while
the value is not below 1024; when the list is exhausted the fallback unit of
the final return line is used.  The value and matched unit are returned; the
formatting to one decimal place is `fmt1`. -/
def human_size_loop : ℚ → List String → String → ℚ × String
  | s, [], fb => (s, fb)
  | s, u :: us, fb => if s < 1024 then (s, u) else human_size_loop (s / 1024) us fb

/-- human_size of compress_png.py / compress_gif.py: units B, KB, MB, with
GB as the fallback of the final return line. -/
def human_size (s : ℚ) : ℚ × String :=
  human_size_loop s ["B", "KB", "MB"] "GB"

/-- human_size of image_info.py: units B, KB, MB, GB, with TB as the
fallback of the final return line. -/
def human_size_info (s : ℚ) : ℚ × String :=
  human_size_loop s ["B", "KB", "MB", "GB"] "TB"

/-- The integer number of tenths shown by Python's "%.1f" formatting: ten
times the value, rounded to the nearest integer with ties going to the even
integer (the IEEE-754 rounding Python printing performs; for the byte counts
involved the intermediate values are exactly representable, so the rational
computation coincides with the float one). -/
def round_half_even_tenths (q : ℚ) : ℤ :=
  let x := q * 10
  let f := Int.floor x
  if x - (f : ℚ) < 1 / 2 then f
  else if (1 : ℚ) / 2 < x - (f : ℚ) then f + 1
  else if f % 2 = 0 then f else f + 1

/-- One-decimal-place rendering of a nonnegative value, as "%.1f" prints it. -/
def fmt1 (q : ℚ) : String :=
  let t := round_half_even_tenths q
  toString (t / 10) ++ "." ++ toString (t % 10)

/-- The full string human_size (compressor version) returns:
the value to one decimal place, a space, and the matched unit. -/
def human_size_str (s : ℚ) : String :=
  fmt1 (human_size s).1 ++ " " ++ (human_size s).2

/-! ## Shared: summary percentage (compress_png.py lines 87-90, compress_gif.py lines 111-115) -/

/-- Python's true division, with ZeroDivisionError as Option.none. -/
def pydiv (a b : ℚ) : Option ℚ :=
  if b = 0 then Option.none else Option.some (a / b)

/-- Model of the summary line of both compressors:
`saved_total = total_old - total_new` and
`pct = (saved_total / total_old * 100) if total_old else 0`. -/
def summary_pct (total_old total_new : ℤ) : Option ℚ :=
  if total_old ≠ 0 then
    (pydiv (((total_old : ℚ)) - ((total_new : ℚ))) ((total_old : ℚ))).map
      (fun q => q * 100)
  else Option.some 0

/-! ## image_info.py : get_gif_info and the reporter -/

/-- The result of opening a file as an image: dimensions, number of frames,
and the optional "duration" entry of `img.info`. -/
structure ImgData where
  width : ℕ
  height : ℕ
  nFrames : ℕ
  duration : Option ℕ
deriving DecidableEq

/-- The frame-counting loop of get_gif_info (image_info.py lines 21-27):
starting at frame `pos`, repeatedly increment `frames` and seek to the next
frame; `img.seek(k)` raises EOFError exactly when `k` is at or past the
frame count `n`, ending the loop. -/
def gif_frames_loop (n pos frames : ℕ) : ℕ :=
  if pos + 1 < n then gif_frames_loop n (pos + 1) (frames + 1) else frames + 1
termination_by n - pos

/-- Model of get_gif_info (image_info.py lines 19-30): the counted frames and
`img.info.get("duration", 0)`. -/
def get_gif_info (i : ImgData) : ℕ × ℕ :=
  (gif_frames_loop i.nFrames 0 0, i.duration.getD 0)

/-- A directory entry as the reporter sees it: name, byte size, and the image
data Pillow can read from it (`Option.none` = Image.open raises: the content
is unreadable as an image). -/
structure SrcFile where
  name : String
  size : ℕ
  img : Option ImgData
deriving DecidableEq

/-- Model of `os.path.splitext(s)[1]`: the suffix from the last dot of the
name, except that leading dots alone never begin an extension. -/
def splitextExt (s : String) : String :=
  let cs := s.toList
  let lead := (cs.takeWhile (fun c => c = '.')).length
  let rest := cs.drop lead
  if rest.contains '.' then
    String.mk ('.' :: ((rest.reverse.takeWhile (fun c => c ≠ '.')).reverse))
  else ""

/-- Model of `os.path.splitext(s)[1].lower()`. -/
def ext_lower (s : String) : String :=
  String.mk ((splitextExt s).toList.map Char.toLower)

/-- The reporter's recognized extension set (image_info.py line 34). -/
def reporter_exts : List String :=
  [".png", ".jpg", ".jpeg", ".gif", ".webp", ".svg", ".bmp"]

/-- Model of `f.lower().endswith(".gif")` (image_info.py line 57). -/
def isGifName (s : String) : Bool :=
  ['.', 'g', 'i', 'f'].isSuffixOf (s.toList.map Char.toLower)

/-- The dimensions column (image_info.py lines 53-57): the probe is wrapped,
so an unreadable file renders as "N/A" instead of raising. -/
def dims_field (f : SrcFile) : String :=
  match f.img with
  | Option.some i => toString i.width ++ "x" ++ toString i.height
  | Option.none => "N/A"

/-- The extra column (image_info.py lines 59-62): for a name ending in
".gif" the reporter calls get_gif_info, whose Image.open is NOT wrapped:
on an unreadable file it raises (modelled as Except.error); for other names
the column is empty. -/
def extra_field (f : SrcFile) : Except String String :=
  if isGifName f.name then
    match f.img with
    | Option.some i =>
        Except.ok ("frames=" ++ toString (get_gif_info i).1 ++
          ", duration=" ++ toString (get_gif_info i).2 ++ "ms/frame")
    | Option.none => Except.error "UnidentifiedImageError"
  else Except.ok ""

/-- One iteration of the reporter's loop (image_info.py lines 47-64): the
row printed for a file, or the exception that aborts the run. -/
def report_row (f : SrcFile) : Except String (ℕ × String × String) :=
  match extra_field f with
  | Except.ok e => Except.ok (f.size, dims_field f, e)
  | Except.error msg => Except.error msg

/-- The reporter's loop over the recognized files, aborting at the first
uncaught exception. -/
def report_rows : List SrcFile → Except String (List (ℕ × String × String))
  | [] => Except.ok []
  | f :: rest =>
      match report_row f with
      | Except.error msg => Except.error msg
      | Except.ok r =>
          match report_rows rest with
          | Except.error msg => Except.error msg
          | Except.ok rs => Except.ok (r :: rs)

/-- The extension filter of image_info.py lines 35-38 (the sort order of the
listing does not matter to any property stated here and is not modelled). -/
def recognized (files : List SrcFile) : List SrcFile :=
  files.filter (fun f => reporter_exts.contains (ext_lower f.name))

/-- Model of image_info.py main: the rows printed and the grand total of the
byte sizes, or the exception that aborts the run. -/
def run_report (files : List SrcFile) :
    Except String (List (ℕ × String × String) × ℕ) :=
  match report_rows (recognized files) with
  | Except.ok rows => Except.ok (rows, (rows.map (fun r => r.1)).sum)
  | Except.error msg => Except.error msg

/-- The row the reporter prints for a file on which nothing raises. -/
def row_ok (f : SrcFile) : ℕ × String × String :=
  (f.size, dims_field f,
    match extra_field f with
    | Except.ok e => e
    | Except.error _ => "")

/-! ## Helper lemmas -/

/-- Characterization of the binade: if 2^n ≤ r < 2^(n+1) then the floor of
the base-2 logarithm is n. -/
theorem int_log_eq {r : ℚ} {n : ℤ} (hr : 0 < r)
    (h1 : (2 : ℚ) ^ n ≤ r) (h2 : r < (2 : ℚ) ^ (n + 1)) : Int.log 2 r = n := by
  have hlo : n ≤ Int.log 2 r := (Int.zpow_le_iff_le_log (by norm_num) hr).1 (by exact_mod_cast h1)
  have hhi : Int.log 2 r < n + 1 := (Int.lt_zpow_iff_log_lt (by norm_num) hr).1 (by exact_mod_cast h2)
  omega

/-- Rounding half-to-even never drags a nonnegative value negative. -/
theorem rheInt_nonneg (x : ℚ) (h : 0 ≤ x) : 0 ≤ rheInt x := by
  have hf : 0 ≤ ⌊x⌋ := Int.floor_nonneg.mpr h
  simp only [rheInt]
  split_ifs <;> omega

/-- The double rounding of a nonnegative value is nonnegative. -/
theorem fl64_nonneg (q : ℚ) (h : 0 ≤ q) : 0 ≤ fl64 q := by
  by_cases hq : q = 0
  · simp [fl64, hq]
  · have hm := rheInt_nonneg (|q| / 2 ^ (Int.log 2 |q| - 52)) (by positivity)
    have hp : (0 : ℚ) ≤ (2 : ℚ) ^ (Int.log 2 |q| - 52) := by positivity
    have hmq : (0 : ℚ) ≤ (rheInt (|q| / 2 ^ (Int.log 2 |q| - 52)) : ℚ) := by exact_mod_cast hm
    simp only [fl64, if_neg hq, if_neg (not_lt.2 h)]
    nlinarith [hmq, hp]

/-- Evaluation scheme for fl64 at a positive rational, given its binade
exponent and rounded significand. -/
theorem fl64_eval (q : ℚ) (e m : ℤ) (hq : 0 < q)
    (hlog : Int.log 2 q = e + 52)
    (hm : rheInt (q / 2 ^ e) = m) :
    fl64 q = (m : ℚ) * 2 ^ e := by
  have habs : |q| = q := abs_of_pos hq
  simp only [fl64, if_neg hq.ne', if_neg (not_lt.2 hq.le), habs, hlog]
  rw [show e + 52 - 52 = e by omega, hm]
  ring

/-- The double nearest to 2/3 (the value of `ratio` at bound 2, width 3):
0.6666666666666666 = 6004799503160661 * 2^-53. -/
theorem ratio_23 : pyRatio 2 3 = 6004799503160661 * (2 : ℚ) ^ (-53 : ℤ) := by
  have hc : ((2 : ℕ) : ℚ) / ((3 : ℕ) : ℚ) = 2 / 3 := by norm_num
  rw [pyRatio, hc]
  apply fl64_eval (2 / 3) (-53) 6004799503160661 (by norm_num)
  · apply int_log_eq (by norm_num) (by norm_num) (by norm_num)
  · have hx : (2 / 3 : ℚ) / 2 ^ (-53 : ℤ) = 18014398509481984 / 3 := by norm_num
    rw [hx]
    simp only [rheInt]
    have hf : ⌊(18014398509481984 / 3 : ℚ)⌋ = 6004799503160661 := by norm_num
    rw [hf, if_pos (by norm_num)]

/-- The height the scripts compute at bound 2, width 3, height 7:
int(7 * 0.6666666666666666) = int(4.666666666666666) = 4. -/
theorem height_237 : pyResizeHeight 2 3 7 = 4 := by
  have hq2 : ((7 : ℕ) : ℚ) * pyRatio 2 3 = 42033596522124627 * (2 : ℚ) ^ (-53 : ℤ) := by
    rw [ratio_23]
    push_cast
    ring
  have hfl : fl64 (42033596522124627 * (2 : ℚ) ^ (-53 : ℤ)) =
      5254199565265578 * (2 : ℚ) ^ (-50 : ℤ) := by
    apply fl64_eval _ (-50) 5254199565265578 (by positivity)
    · apply int_log_eq (by positivity)
      · norm_num
      · norm_num
    · have hx : (42033596522124627 * (2 : ℚ) ^ (-53 : ℤ)) / 2 ^ (-50 : ℤ) =
          42033596522124627 / 8 := by
        rw [div_eq_iff (by positivity)]
        rw [show ((-53 : ℤ)) = (-50) + (-3) by omega, zpow_add₀ (by norm_num : (2 : ℚ) ≠ 0)]
        norm_num
      rw [hx]
      simp only [rheInt]
      have hf : ⌊(42033596522124627 / 8 : ℚ)⌋ = 5254199565265578 := by norm_num
      rw [hf, if_pos (by norm_num)]
  rw [pyResizeHeight, hq2, hfl]
  have hfloor : ⌊(5254199565265578 : ℚ) * (2 : ℚ) ^ (-50 : ℤ)⌋ = 4 := by
    rw [show ((5254199565265578 : ℚ) * (2 : ℚ) ^ (-50 : ℤ)) =
      5254199565265578 / 1125899906842624 by norm_num]
    norm_num
  rw [hfloor]
  rfl

/-- The double nearest to 15/22 (the value of `ratio` at bound 15, width 22):
0.6818181818181818 = 6141272219141585 * 2^-53. -/
theorem ratio_1522 : pyRatio 15 22 = 6141272219141585 * (2 : ℚ) ^ (-53 : ℤ) := by
  have hc : ((15 : ℕ) : ℚ) / ((22 : ℕ) : ℚ) = 15 / 22 := by norm_num
  rw [pyRatio, hc]
  apply fl64_eval (15 / 22) (-53) 6141272219141585 (by norm_num)
  · apply int_log_eq (by norm_num) (by norm_num) (by norm_num)
  · have hx : (15 / 22 : ℚ) / 2 ^ (-53 : ℤ) = 135107988821114880 / 22 := by norm_num
    rw [hx]
    simp only [rheInt]
    have hf : ⌊(135107988821114880 / 22 : ℚ)⌋ = 6141272219141585 := by norm_num
    rw [hf, if_pos (by norm_num)]

/-- The height the scripts compute at bound 15, width 22, height 22:
int(22 * 0.6818181818181818) = int(14.999999999999998) = 14. -/
theorem height_152222 : pyResizeHeight 15 22 22 = 14 := by
  have hq2 : ((22 : ℕ) : ℚ) * pyRatio 15 22 = 135107988821114870 * (2 : ℚ) ^ (-53 : ℤ) := by
    rw [ratio_1522]
    push_cast
    ring
  have hfl : fl64 (135107988821114870 * (2 : ℚ) ^ (-53 : ℤ)) =
      8444249301319679 * (2 : ℚ) ^ (-49 : ℤ) := by
    apply fl64_eval _ (-49) 8444249301319679 (by positivity)
    · apply int_log_eq (by positivity)
      · norm_num
      · norm_num
    · have hx : (135107988821114870 * (2 : ℚ) ^ (-53 : ℤ)) / 2 ^ (-49 : ℤ) =
          135107988821114870 / 16 := by
        rw [div_eq_iff (by positivity)]
        rw [show ((-53 : ℤ)) = (-49) + (-4) by omega, zpow_add₀ (by norm_num : (2 : ℚ) ≠ 0)]
        norm_num
      rw [hx]
      simp only [rheInt]
      have hf : ⌊(135107988821114870 / 16 : ℚ)⌋ = 8444249301319679 := by norm_num
      rw [hf, if_pos (by norm_num)]
  rw [pyResizeHeight, hq2, hfl]
  have hfloor : ⌊(8444249301319679 : ℚ) * (2 : ℚ) ^ (-49 : ℤ)⌋ = 14 := by
    rw [show ((8444249301319679 : ℚ) * (2 : ℚ) ^ (-49 : ℤ)) =
      8444249301319679 / 562949953421312 by norm_num]
    norm_num
  rw [hfloor]
  rfl

/-- The float computation is not exact integer division: at bound 15,
width 22, height 22 the program computes 14 (the double product is
14.999999999999998, truncated), while exact division 22*15/22 gives 15.
This matches CPython: int(22 * (15/22)) == 14. -/
theorem pyResizeHeight_float_differs :
    pyResizeHeight 15 22 22 = 14 ∧ 22 * 15 / 22 = 15 :=
  ⟨height_152222, rfl⟩

/-- Unrolling of the frame-counting loop, by induction on the distance to the
last frame. -/
theorem gif_frames_loop_aux (k : ℕ) : ∀ n pos frames : ℕ, n - pos = k → pos < n →
    gif_frames_loop n pos frames = frames + (n - pos) := by
  induction k with
  | zero => intro n pos frames hk h; omega
  | succ k ih =>
    intro n pos frames hk h
    rw [gif_frames_loop]
    by_cases hc : pos + 1 < n
    · rw [if_pos hc, ih n (pos + 1) (frames + 1) (by omega) hc]; omega
    · rw [if_neg hc]; omega

/-- Closed form of the frame-counting loop. -/
theorem gif_frames_loop_closed (n pos frames : ℕ) (h : pos < n) :
    gif_frames_loop n pos frames = frames + (n - pos) :=
  gif_frames_loop_aux (n - pos) n pos frames rfl h

/-- When no recognized file is both unreadable and named like a GIF, every
row of the reporter's loop is produced without an exception. -/
theorem report_rows_ok (l : List SrcFile)
    (h : ∀ f ∈ l, f.img = Option.none → isGifName f.name = false) :
    report_rows l = Except.ok (l.map row_ok) := by
  induction l with
  | nil => rfl
  | cons f rest ih =>
    have hf : report_row f = Except.ok (row_ok f) := by
      unfold report_row row_ok
      cases himg : f.img with
      | none =>
          have hg := h f (by simp) himg
          simp [extra_field, hg]
      | some i =>
          by_cases hg : isGifName f.name <;> simp [extra_field, hg, himg]
    rw [report_rows, hf, ih (fun g hg => h g (by simp [hg]))]
    rfl

/-! ## C1 : proportional resize height -/

/-- C1, the claim as stated is false: at width 3, height 7, bound 2 both
compressors compute height int(7 * (2/3)) = int(4.666666666666666) = 4 in
double precision, while round(7 * 2 / 3) = round(4.666...) = 5. -/
theorem resize_round_counterexample :
    (((compress_image_resize 2 3 7).2 : ℤ) ≠ round ((7 : ℚ) * 2 / 3)) ∧
    ((((gif_resize_arg 2 3 7).getD (0, 0)).2 : ℤ) ≠ round ((7 : ℚ) * 2 / 3)) := by
  have h1 : compress_image_resize 2 3 7 = (2, 4) := by
    rw [compress_image_resize, if_pos (by norm_num), height_237]
  have h2 : gif_resize_arg 2 3 7 = Option.some (2, 4) := by
    rw [gif_resize_arg, if_pos (by norm_num), height_237]
  have hr : round ((7 : ℚ) * 2 / 3) = 5 := by norm_num [round_eq]
  constructor
  · rw [h1, hr]; decide
  · rw [h2, hr]; decide

/-- C1 (amended): when the width exceeds the bound, both the PNG/JPG
compressor and the GIF compressor compute the same new height, the
truncation toward zero of the double-precision product H * (bound / W)
(Python's int() on the float value: the integer bracketed by the product,
rounding down, never to nearest); images with width at most the bound are
not resized (no resize flag for the GIF tool). -/
theorem resize_truncates (maxW w h : ℕ) :
    (maxW < w →
       compress_image_resize maxW w h = (maxW, pyResizeHeight maxW w h) ∧
       gif_resize_arg maxW w h = Option.some (maxW, pyResizeHeight maxW w h) ∧
       (pyResizeHeight maxW w h : ℚ) ≤ fl64 ((h : ℚ) * pyRatio maxW w) ∧
       fl64 ((h : ℚ) * pyRatio maxW w) < (pyResizeHeight maxW w h : ℚ) + 1) ∧
    (w ≤ maxW →
       compress_image_resize maxW w h = (w, h) ∧ gif_resize_arg maxW w h = Option.none) := by
  constructor
  · intro hlt
    have hp : 0 ≤ fl64 ((h : ℚ) * pyRatio maxW w) :=
      fl64_nonneg _ (mul_nonneg (Nat.cast_nonneg h) (fl64_nonneg _ (by positivity)))
    have h0 : (0 : ℤ) ≤ ⌊fl64 ((h : ℚ) * pyRatio maxW w)⌋ := Int.floor_nonneg.mpr hp
    have hc : ((⌊fl64 ((h : ℚ) * pyRatio maxW w)⌋.toNat : ℕ) : ℚ) =
        ((⌊fl64 ((h : ℚ) * pyRatio maxW w)⌋ : ℤ) : ℚ) := by
      exact_mod_cast congrArg (fun z : ℤ => (z : ℚ)) (Int.toNat_of_nonneg h0)
    refine ⟨?_, ?_, ?_, ?_⟩
    · rw [compress_image_resize, if_pos hlt]
    · rw [gif_resize_arg, if_pos hlt]
    · show ((pyResizeHeight maxW w h : ℕ) : ℚ) ≤ _
      rw [pyResizeHeight, hc]
      exact Int.floor_le _
    · show _ < ((pyResizeHeight maxW w h : ℕ) : ℚ) + 1
      rw [pyResizeHeight, hc]
      exact Int.lt_floor_add_one _
  · intro hle
    have hn : ¬ maxW < w := not_lt.2 hle
    rw [compress_image_resize, gif_resize_arg, if_neg hn, if_neg hn]
    exact ⟨rfl, rfl⟩

/-- Witness for resize_truncates at bound 2, width 3, height 7: both
compressors produce height 4, the truncated double product. -/
theorem resize_truncates_witness :
    compress_image_resize 2 3 7 = (2, 4) ∧ gif_resize_arg 2 3 7 = Option.some (2, 4) := by
  obtain ⟨h1, h2, -, -⟩ := (resize_truncates 2 3 7).1 (by norm_num)
  rw [h1, h2, height_237]
  exact ⟨rfl, rfl⟩

/-! ## C2 : reporter degrades to N/A, except for corrupt GIFs -/

/-- C2, the claim as stated is false for the .gif extension: a single file
named "bad.gif" with unreadable content makes the reporter raise (the
get_gif_info probe is outside the try/except), aborting the run instead of
rendering the row. -/
theorem reporter_corrupt_gif_raises :
    run_report [⟨"bad.gif", 7, Option.none⟩] = Except.error "UnidentifiedImageError" := rfl

/-- C2 (amended): for every recognized extension other than .gif, a file with
unreadable content does not make the reporter raise: the run completes, the
dimensions field of any unreadable file renders as "N/A", and the grand total
sums the byte sizes of all recognized files, the unreadable ones included. -/
theorem reporter_degrades_to_na (files : List SrcFile)
    (h : ∀ f ∈ recognized files, f.img = Option.none → isGifName f.name = false) :
    run_report files = Except.ok ((recognized files).map row_ok,
      ((recognized files).map (fun f => f.size)).sum) ∧
    (∀ f : SrcFile, f.img = Option.none → dims_field f = "N/A") := by
  constructor
  · rw [run_report, report_rows_ok _ h]
    show Except.ok ((recognized files).map row_ok,
      (((recognized files).map row_ok).map (fun r => r.1)).sum) = _
    have : ((recognized files).map row_ok).map (fun r => r.1) =
        (recognized files).map (fun f => f.size) := by
      simp [List.map_map, row_ok, Function.comp]
    rw [this]
  · intro f hf
    simp [dims_field, hf]

/-- Witness for reporter_degrades_to_na: a readable GIF, an unreadable PNG
and an unrecognized name; the run completes with total 3 + 7. -/
theorem reporter_degrades_to_na_witness :
    run_report [⟨"ok.gif", 3, Option.some ⟨4, 5, 2, Option.some 10⟩⟩,
                ⟨"bad.png", 7, Option.none⟩,
                ⟨"skip.txt", 9, Option.none⟩] =
      Except.ok ((recognized [⟨"ok.gif", 3, Option.some ⟨4, 5, 2, Option.some 10⟩⟩,
                ⟨"bad.png", 7, Option.none⟩,
                ⟨"skip.txt", 9, Option.none⟩]).map row_ok,
        ((recognized [⟨"ok.gif", 3, Option.some ⟨4, 5, 2, Option.some 10⟩⟩,
                ⟨"bad.png", 7, Option.none⟩,
                ⟨"skip.txt", 9, Option.none⟩]).map (fun f => f.size)).sum) ∧
    (∀ f : SrcFile, f.img = Option.none → dims_field f = "N/A") :=
  reporter_degrades_to_na _ (by decide)

/-! ## C3 : the GIF compressor never grows a file -/

/-- C3: compress_gif reports new_size at most old_size on every path; on a
successful tool run whose output is not strictly smaller the original bytes
are kept and the reported size equals the original size; and the original
file changes only when the tool succeeded with strictly smaller output, in
which case that output replaces it. -/
theorem compress_gif_never_grows (dims : Bytes → ℕ × ℕ) (t : ToolOutcome) (fs0 : GifFs) :
    ((compress_gif dims t fs0).1.new_size ≤ (compress_gif dims t fs0).1.old_size) ∧
    (∀ out : Bytes, t = ToolOutcome.ok out → ¬ out.length < fs0.orig.length →
       (compress_gif dims t fs0).2.orig = fs0.orig ∧
       (compress_gif dims t fs0).1.new_size = (compress_gif dims t fs0).1.old_size) ∧
    ((compress_gif dims t fs0).2.orig ≠ fs0.orig →
       ∃ out : Bytes, t = ToolOutcome.ok out ∧ out.length < fs0.orig.length ∧
         (compress_gif dims t fs0).2.orig = out) := by
  cases t with
  | fail stderr w =>
      refine ⟨le_refl _, ?_, ?_⟩
      · intro out hout; exact absurd hout (by simp)
      · intro hne; exact absurd rfl hne
  | ok out =>
      by_cases hlt : out.length < fs0.orig.length
      · refine ⟨?_, ?_, ?_⟩
        · simp [compress_gif, hlt]; omega
        · intro o ho hnl
          injection ho with ho; subst ho
          exact absurd hlt hnl
        · intro _
          exact ⟨out, rfl, hlt, by simp [compress_gif, hlt]⟩
      · refine ⟨?_, ?_, ?_⟩
        · simp [compress_gif, hlt]
        · intro o ho hnl
          injection ho with ho; subst ho
          constructor <;> simp [compress_gif, hlt]
        · intro hne
          exact absurd (by simp [compress_gif, hlt] :
            (compress_gif dims (ToolOutcome.ok out) fs0).2.orig = fs0.orig) hne

/-- Witness for compress_gif_never_grows: tool output of 3 bytes against a
1-byte original is discarded and the original is kept. -/
theorem compress_gif_never_grows_witness :
    ((compress_gif (fun _ => (1, 1)) (ToolOutcome.ok [5, 6, 7]) ⟨[1], Option.none⟩).1.new_size ≤
      (compress_gif (fun _ => (1, 1)) (ToolOutcome.ok [5, 6, 7]) ⟨[1], Option.none⟩).1.old_size) ∧
    ((compress_gif (fun _ => (1, 1)) (ToolOutcome.ok [5, 6, 7]) ⟨[1], Option.none⟩).2.orig = [1]) ∧
    ((compress_gif (fun _ => (1, 1)) (ToolOutcome.ok [5, 6, 7]) ⟨[1], Option.none⟩).1.new_size =
      (compress_gif (fun _ => (1, 1)) (ToolOutcome.ok [5, 6, 7]) ⟨[1], Option.none⟩).1.old_size) :=
  ⟨(compress_gif_never_grows (fun _ => (1, 1)) (ToolOutcome.ok [5, 6, 7]) ⟨[1], Option.none⟩).1,
   ((compress_gif_never_grows (fun _ => (1, 1)) (ToolOutcome.ok [5, 6, 7]) ⟨[1], Option.none⟩).2.1
      [5, 6, 7] rfl (by decide)).1,
   ((compress_gif_never_grows (fun _ => (1, 1)) (ToolOutcome.ok [5, 6, 7]) ⟨[1], Option.none⟩).2.1
      [5, 6, 7] rfl (by decide)).2⟩

/-! ## C4 : tool failure leaves the file untouched and the run continues -/

/-- C4: on a non-zero exit of the external tool, compress_gif leaves the
original bytes (hence the size) unchanged, deletes any temporary output,
reports new_size equal to old_size and unchanged dimensions, surfaces the
tool's stderr text, and the per-file loop still processes the remaining
files. -/
theorem compress_gif_fail_leaves_file_untouched (dims : Bytes → ℕ × ℕ)
    (stderr : String) (w : Option Bytes) (fs0 : GifFs) :
    ((compress_gif dims (ToolOutcome.fail stderr w) fs0).2.orig = fs0.orig) ∧
    ((compress_gif dims (ToolOutcome.fail stderr w) fs0).2.tmp = Option.none) ∧
    ((compress_gif dims (ToolOutcome.fail stderr w) fs0).1.new_size = fs0.orig.length) ∧
    ((compress_gif dims (ToolOutcome.fail stderr w) fs0).1.old_size = fs0.orig.length) ∧
    ((compress_gif dims (ToolOutcome.fail stderr w) fs0).1.new_dims =
       (compress_gif dims (ToolOutcome.fail stderr w) fs0).1.old_dims) ∧
    ((compress_gif dims (ToolOutcome.fail stderr w) fs0).1.err = Option.some stderr) ∧
    (∀ rest : List (ToolOutcome × GifFs),
       compress_gif_run dims ((ToolOutcome.fail stderr w, fs0) :: rest) =
         compress_gif dims (ToolOutcome.fail stderr w) fs0 :: compress_gif_run dims rest) :=
  ⟨rfl, rfl, rfl, rfl, rfl, rfl, fun _ => rfl⟩

/-! ## C5 : the temporary file never persists -/

/-- C5: the gifsicle invocation deposits its output at the temporary path,
and on every return path of compress_gif no file remains there: the original
path afterwards holds either the untouched original bytes or, exactly on the
success-and-strictly-smaller path, the promoted tool output. -/
theorem compress_gif_tmp_never_persists (dims : Bytes → ℕ × ℕ) (t : ToolOutcome) (fs0 : GifFs) :
    ((compress_gif dims t fs0).2.tmp = Option.none) ∧
    (∀ out : Bytes, ∀ fs : GifFs,
       (runGifsicle (ToolOutcome.ok out) fs).tmp = Option.some out) ∧
    ((compress_gif dims t fs0).2.orig = fs0.orig ∨
      ∃ out : Bytes, t = ToolOutcome.ok out ∧ out.length < fs0.orig.length ∧
        (compress_gif dims t fs0).2.orig = out) := by
  refine ⟨?_, fun out fs => rfl, ?_⟩
  · cases t with
    | fail s w => rfl
    | ok out => by_cases hlt : out.length < fs0.orig.length <;> simp [compress_gif, hlt]
  · cases t with
    | fail s w => exact Or.inl rfl
    | ok out =>
        by_cases hlt : out.length < fs0.orig.length
        · exact Or.inr ⟨out, rfl, hlt, by simp [compress_gif, hlt]⟩
        · exact Or.inl (by simp [compress_gif, hlt])

/-! ## C6 : JPEG alpha conversion -/

/-- C6, the claim as stated is false: an LA-mode image (grayscale with an
alpha channel) headed for the JPEG encoder is not converted; only the exact
mode string "RGBA" triggers the RGB conversion. -/
theorem jpeg_la_not_converted :
    compress_image_save ".jpg" 85 ⟨10, 10, "LA"⟩ =
      SaveCall.jpeg ⟨10, 10, "LA"⟩ 85 true ∧ ("LA" : String) ≠ "RGB" := by
  constructor
  · rfl
  · decide

/-- C6 (amended): for extension .jpg or .jpeg, the image written back is the
JPEG encoding (given quality, optimize on) of the resized image converted to
RGB exactly when its mode is "RGBA"; an image in any other mode, including
other alpha-carrying modes, is passed to the encoder unconverted. -/
theorem jpeg_converts_exactly_rgba (enc : SaveCall → Bytes) (maxW quality : ℕ)
    (ext : String) (file : Bytes) (img0 : PilImage)
    (hext : ext = ".jpg" ∨ ext = ".jpeg") :
    ((resizeIfWide maxW img0).mode = "RGBA" →
      (compress_image enc maxW quality ext file img0).2 =
        enc (SaveCall.jpeg { resizeIfWide maxW img0 with mode := "RGB" } quality true)) ∧
    ((resizeIfWide maxW img0).mode ≠ "RGBA" →
      (compress_image enc maxW quality ext file img0).2 =
        enc (SaveCall.jpeg (resizeIfWide maxW img0) quality true)) := by
  constructor
  · intro hm
    rcases hext with h | h <;> subst h <;> simp [compress_image, compress_image_save, hm]
  · intro hm
    rcases hext with h | h <;> subst h <;> simp [compress_image, compress_image_save, hm]

/-- Witness for jpeg_converts_exactly_rgba: an RGBA image saved as .jpg is
written back as the encoder output for the RGB-converted image. -/
theorem jpeg_converts_exactly_rgba_witness :
    (compress_image (fun _ => [9]) 10 85 ".jpg" [1, 2] ⟨5, 5, "RGBA"⟩).2 = [9] :=
  (jpeg_converts_exactly_rgba (fun _ => [9]) 10 85 ".jpg" [1, 2] ⟨5, 5, "RGBA"⟩
    (Or.inl rfl)).1 (by decide)

/-! ## C7 : human-readable size formatting -/

/-- C7: the formatter repeatedly divides by 1024 through its unit sequence
until the value is below 1024 and prints it to one decimal place with the
matched unit, so the shown magnitude is below 1024 in every unit except the
last fallback unit (GB for the compressors, TB for the reporter), which is
unbounded; 1536 formats as "1.5 KB" and 500 as "500.0 B". -/
theorem human_size_matched_unit (s : ℕ) :
    (s < 1024 → human_size s = ((s : ℚ), "B") ∧ human_size_info s = ((s : ℚ), "B")) ∧
    (1024 ≤ s → s < 1048576 →
       human_size s = ((s : ℚ) / 1024, "KB") ∧
       human_size_info s = ((s : ℚ) / 1024, "KB") ∧ (s : ℚ) / 1024 < 1024) ∧
    (1048576 ≤ s → s < 1073741824 →
       human_size s = ((s : ℚ) / 1048576, "MB") ∧
       human_size_info s = ((s : ℚ) / 1048576, "MB") ∧ (s : ℚ) / 1048576 < 1024) ∧
    (1073741824 ≤ s → human_size s = ((s : ℚ) / 1073741824, "GB")) ∧
    (1073741824 ≤ s → s < 1099511627776 →
       human_size_info s = ((s : ℚ) / 1073741824, "GB") ∧ (s : ℚ) / 1073741824 < 1024) ∧
    (1099511627776 ≤ s → human_size_info s = ((s : ℚ) / 1099511627776, "TB")) ∧
    human_size_str 1536 = "1.5 KB" ∧ human_size_str 500 = "500.0 B" := by
  have b0 : (0 : ℚ) < 1024 := by norm_num
  have e3 : (s : ℚ) / 1024 / 1024 = (s : ℚ) / 1048576 := by
    rw [div_div]; norm_num
  have e4 : (s : ℚ) / 1024 / 1024 / 1024 = (s : ℚ) / 1073741824 := by
    rw [div_div, div_div]; norm_num
  have e5 : (s : ℚ) / 1024 / 1024 / 1024 / 1024 = (s : ℚ) / 1099511627776 := by
    rw [div_div, div_div, div_div]; norm_num
  have n1 : 1024 ≤ s → ¬ ((s : ℚ) < 1024) := fun h => not_lt.2 (by exact_mod_cast h)
  have n2 : 1048576 ≤ s → ¬ ((s : ℚ) / 1024 < 1024) := fun h => not_lt.2 (by
    rw [le_div_iff b0]
    have : (1024 * 1024 : ℕ) ≤ s := by omega
    exact_mod_cast this)
  have n3 : 1073741824 ≤ s → ¬ ((s : ℚ) / 1024 / 1024 < 1024) := fun h => not_lt.2 (by
    rw [div_div, le_div_iff (by norm_num : (0 : ℚ) < 1024 * 1024)]
    have : (1024 * (1024 * 1024) : ℕ) ≤ s := by omega
    exact_mod_cast this)
  have n4 : 1099511627776 ≤ s → ¬ ((s : ℚ) / 1024 / 1024 / 1024 < 1024) := fun h => not_lt.2 (by
    rw [div_div, div_div, le_div_iff (by norm_num : (0 : ℚ) < 1024 * (1024 * 1024))]
    have : (1024 * (1024 * (1024 * 1024)) : ℕ) ≤ s := by omega
    exact_mod_cast this)
  refine ⟨?_, ?_, ?_, ?_, ?_, ?_, ?_, ?_⟩
  · intro h
    have hq : (s : ℚ) < 1024 := by exact_mod_cast h
    constructor <;> simp [human_size, human_size_info, human_size_loop, hq]
  · intro h1 h2
    have p2 : (s : ℚ) / 1024 < 1024 := by
      rw [div_lt_iff b0]
      calc (s : ℚ) < 1048576 := by exact_mod_cast h2
        _ = 1024 * 1024 := by norm_num
    refine ⟨?_, ?_, p2⟩ <;>
      simp [human_size, human_size_info, human_size_loop, n1 h1, p2]
  · intro h1 h2
    have p3 : (s : ℚ) / 1024 / 1024 < 1024 := by
      rw [div_div, div_lt_iff (by norm_num : (0 : ℚ) < 1024 * 1024)]
      calc (s : ℚ) < 1073741824 := by exact_mod_cast h2
        _ = 1024 * (1024 * 1024) := by norm_num
    refine ⟨?_, ?_, by rw [← e3]; exact p3⟩ <;>
      · simp [human_size, human_size_info, human_size_loop, n1 (by omega), n2 h1, p3]
        rw [e3]
  · intro h1
    have goal4 : human_size s = ((s : ℚ) / 1024 / 1024 / 1024, "GB") := by
      simp [human_size, human_size_loop, n1 (by omega), n2 (by omega), n3 h1]
    rw [goal4, e4]
  · intro h1 h2
    have p4 : (s : ℚ) / 1024 / 1024 / 1024 < 1024 := by
      rw [div_div, div_div, div_lt_iff (by norm_num : (0 : ℚ) < 1024 * (1024 * 1024))]
      calc (s : ℚ) < 1099511627776 := by exact_mod_cast h2
        _ = 1024 * (1024 * (1024 * 1024)) := by norm_num
    refine ⟨?_, by rw [← e4]; exact p4⟩
    have hi : human_size_info s = ((s : ℚ) / 1024 / 1024 / 1024, "GB") := by
      simp [human_size_info, human_size_loop, n1 (by omega), n2 (by omega), n3 h1, p4]
    rw [hi, e4]
  · intro h1
    have hi : human_size_info s = ((s : ℚ) / 1024 / 1024 / 1024 / 1024, "TB") := by
      simp [human_size_info, human_size_loop, n1 (by omega), n2 (by omega), n3 (by omega), n4 h1]
    rw [hi, e5]
  · have e1 : human_size 1536 = (3 / 2, "KB") := by
      simp only [human_size, human_size_loop]; norm_num
    have e2 : round_half_even_tenths (3 / 2 : ℚ) = 15 := by
      simp only [round_half_even_tenths]; norm_num
    simp only [human_size_str, e1, fmt1, e2]
    decide
  · have e1 : human_size 500 = (500, "B") := by
      simp only [human_size, human_size_loop]; norm_num
    have e2 : round_half_even_tenths (500 : ℚ) = 5000 := by
      simp only [round_half_even_tenths]; norm_num
    simp only [human_size_str, e1, fmt1, e2]
    decide

/-- Witness for human_size_matched_unit at 2048 bytes: both formatters pick
KB and the shown magnitude is below 1024. -/
theorem human_size_matched_unit_witness :
    human_size ((2048 : ℕ) : ℚ) = (((2048 : ℕ) : ℚ) / 1024, "KB") ∧
    human_size_info ((2048 : ℕ) : ℚ) = (((2048 : ℕ) : ℚ) / 1024, "KB") ∧
    ((2048 : ℕ) : ℚ) / 1024 < 1024 :=
  (human_size_matched_unit 2048).2.1 (by norm_num) (by norm_num)

/-! ## C8 : the PNG/JPG compressor has no size guard -/

/-- C8: for every recognized extension, the bytes written back are exactly
the encoder output and the reported new_size is its length, with no
comparison against old_size anywhere; in particular there are inputs (an
encoder result of 3 bytes for a 1-byte file) on which new_size strictly
exceeds old_size and the file is still overwritten. -/
theorem compress_image_overwrites_unconditionally (enc : SaveCall → Bytes)
    (maxW quality : ℕ) (ext : String) (file : Bytes) (img0 : PilImage)
    (hext : ext = ".png" ∨ ext = ".jpg" ∨ ext = ".jpeg") :
    ((compress_image enc maxW quality ext file img0).2 =
      enc (compress_image_save ext quality (resizeIfWide maxW img0))) ∧
    ((compress_image enc maxW quality ext file img0).1.2.1 =
      (enc (compress_image_save ext quality (resizeIfWide maxW img0))).length) ∧
    (∃ encX : SaveCall → Bytes, ∃ fileX : Bytes, ∃ imgX : PilImage,
      (compress_image encX maxW quality ext fileX imgX).1.2.1 >
        (compress_image encX maxW quality ext fileX imgX).1.1 ∧
      (compress_image encX maxW quality ext fileX imgX).2 =
        encX (compress_image_save ext quality (resizeIfWide maxW imgX))) := by
  have key : ∀ (e : SaveCall → Bytes) (fl : Bytes) (im : PilImage),
      (compress_image e maxW quality ext fl im).2 =
        e (compress_image_save ext quality (resizeIfWide maxW im)) := by
    intro e fl im
    rcases hext with h | h | h <;> subst h <;>
      simp [compress_image, compress_image_save]
  have len : ∀ (e : SaveCall → Bytes) (fl : Bytes) (im : PilImage),
      (compress_image e maxW quality ext fl im).1.2.1 =
        ((compress_image e maxW quality ext fl im).2).length := fun e fl im => rfl
  refine ⟨key enc file img0, ?_, ?_⟩
  · rw [len, key]
  · refine ⟨fun _ => [0, 0, 0], [], ⟨1, 1, "RGB"⟩, ?_, key _ _ _⟩
    have h1 : (compress_image (fun _ => [0, 0, 0]) maxW quality ext [] ⟨1, 1, "RGB"⟩).1.1 = 0 := rfl
    have h2 : (compress_image (fun _ => [0, 0, 0]) maxW quality ext [] ⟨1, 1, "RGB"⟩).1.2.1 = 3 := by
      rw [len, key]
      rfl
    omega

/-- Witness for compress_image_overwrites_unconditionally: a 1-byte .png file
re-encoded to 3 bytes is overwritten with the larger output. -/
theorem compress_image_overwrites_unconditionally_witness :
    (compress_image (fun _ => [0, 0, 0]) 1200 85 ".png" [1] ⟨1, 1, "RGB"⟩).1.2.1 = 3 ∧
    (compress_image (fun _ => [0, 0, 0]) 1200 85 ".png" [1] ⟨1, 1, "RGB"⟩).1.1 = 1 ∧
    (compress_image (fun _ => [0, 0, 0]) 1200 85 ".png" [1] ⟨1, 1, "RGB"⟩).2 = [0, 0, 0] :=
  ⟨(compress_image_overwrites_unconditionally (fun _ => [0, 0, 0]) 1200 85 ".png" [1]
      ⟨1, 1, "RGB"⟩ (Or.inl rfl)).2.1,
   rfl,
   (compress_image_overwrites_unconditionally (fun _ => [0, 0, 0]) 1200 85 ".png" [1]
      ⟨1, 1, "RGB"⟩ (Or.inl rfl)).1⟩

/-! ## C9 : GIF frame count and duration -/

/-- C9: on a readable GIF (which has at least one frame), get_gif_info
returns exactly the image's frame count, computed by the advance-until-
EOFError loop, together with the "duration" metadata entry, defaulting to 0
when absent. -/
theorem get_gif_info_counts (i : ImgData) (h : 1 ≤ i.nFrames) :
    get_gif_info i = (i.nFrames, i.duration.getD 0) := by
  unfold get_gif_info
  rw [gif_frames_loop_closed i.nFrames 0 0 (by omega)]
  norm_num

/-- Witness for get_gif_info_counts: a 3-frame GIF with a 10 ms duration
entry. -/
theorem get_gif_info_counts_witness :
    get_gif_info ⟨4, 5, 3, Option.some 10⟩ = (3, 10) :=
  get_gif_info_counts ⟨4, 5, 3, Option.some 10⟩ (by norm_num)

/-! ## C10 : the summary percentage is guarded against division by zero -/

/-- C10: the aggregate savings percentage of both compressors' summary line
is always defined: the division is evaluated only under the total_old truthy
guard, yielding (total_old - total_new) / total_old * 100 when total_old is
non-zero and 0 when total_old is zero. -/
theorem summary_pct_guarded (a b : ℤ) :
    ((summary_pct a b).isSome = true) ∧
    (a ≠ 0 → summary_pct a b = Option.some (((a : ℚ) - (b : ℚ)) / (a : ℚ) * 100)) ∧
    (a = 0 → summary_pct a b = Option.some 0) := by
  by_cases h : a = 0
  · subst h
    refine ⟨by simp [summary_pct], fun hc => absurd rfl hc, fun _ => by simp [summary_pct]⟩
  · have hq : ((a : ℚ)) ≠ 0 := Int.cast_ne_zero.mpr h
    refine ⟨?_, fun _ => ?_, fun hc => absurd hc h⟩
    · simp [summary_pct, pydiv, h, hq]
    · simp [summary_pct, pydiv, h, hq]

/-- Witness for summary_pct_guarded: totals 2 and 1 give 50 percent with no
division-by-zero error. -/
theorem summary_pct_guarded_witness :
    ((summary_pct 2 1).isSome = true) ∧
    (summary_pct 2 1 = Option.some ((((2 : ℤ) : ℚ) - ((1 : ℤ) : ℚ)) / ((2 : ℤ) : ℚ) * 100)) :=
  ⟨(summary_pct_guarded 2 1).1, (summary_pct_guarded 2 1).2.1 (by decide)⟩
